import Mathlib

/-!
Shallow embedding of the `posturn` turn-based game engine (Rust crate by
Andrew T. Christensen), file `src/host.rs` together with the `Play`
capability used by `src/tests.rs`.

The engine keeps game state inside `Rc<RefCell<State<Game>>>`.  We embed
the `RefCell` dynamic-borrow discipline as an explicit `BorrowFlag`
(`free` / `reading n` / `writing`), exactly mirroring the runtime counter
of Rust `RefCell`: any number of simultaneous shared borrows, at most one
mutable borrow, and a mutable borrow excludes everything else.  An
operation that would make the Rust program panic is embedded as `none`;
a returned `some` carries the result.  Transactional accessors also emit
a `TxEvent` trace so that "opens exactly one write transaction" style
properties can be stated.

The genawaiter coroutine produced by `Host::play` is embedded as a deep
`Body` tree (yield points, snapshot reads, final outcome) interpreted by
`runBody`, which threads the shared `State` and the list of resume inputs
exactly in the single-threaded cooperative order of the crate.
-/

/-- Runtime borrow state of the `RefCell` guarding the shared `State`.
`reading n` means `n + 1` shared (`Ref`) borrows are alive; `writing`
means one exclusive (`RefMut`) borrow is alive. -/
inductive BorrowFlag : Type where
  | free : BorrowFlag
  | reading : Nat → BorrowFlag
  | writing : BorrowFlag
deriving DecidableEq

/-- RefCell::try_borrow — a further shared borrow succeeds unless an
exclusive borrow is alive. -/
def tryBorrow : BorrowFlag → Option BorrowFlag
  | .free => some (.reading 0)
  | .reading n => some (.reading (n + 1))
  | .writing => none

/-- RefCell::try_borrow_mut — an exclusive borrow succeeds only when no
borrow at all is alive. -/
def tryBorrowMut : BorrowFlag → Option BorrowFlag
  | .free => some .writing
  | .reading _ => none
  | .writing => none

/-- Shared helper structure of `src/host.rs` (lines 12-15): tracks whether
a game has been started plus the game state itself. -/
structure State (Game : Type) : Type where
  is_in_progress : Bool
  game : Game
deriving DecidableEq

/-- From<Game> for State<Game> (`src/host.rs` lines 17-26): a fresh state
starts with `is_in_progress = false`. -/
def State.fromGame {Game : Type} (game : Game) : State Game :=
  { is_in_progress := false, game := game }

/-- Error type returned by `Host::play` (`src/host.rs` lines 28-35). -/
inductive PlayError : Type where
  | InUse : PlayError
  | AlreadyStarted : PlayError
deriving DecidableEq

/-- Host::new (`src/host.rs` lines 47-50): wraps the initial game in a
fresh `State` cell. -/
def Host.new {Game : Type} (game : Game) : State Game :=
  State.fromGame game

/-- Host::play (`src/host.rs` lines 55-77), embedded over the ambient
borrow flag of the cell.  The code first does `try_borrow_mut`; on
failure it returns `Err(InUse)`.  On success it checks `is_in_progress`,
returning `Err(AlreadyStarted)` when true; the temporary borrow is
dropped at the end of the `if let` scope.  Otherwise it returns
`Ok(Gen::new(run))` — constructing the generator does not run the body
and does not touch the state, so the resulting state is returned
unchanged in every branch. -/
def Host.play {Game : Type} (flag : BorrowFlag) (s : State Game) :
    Except PlayError Unit × State Game :=
  match tryBorrowMut flag with
  | none => (.error .InUse, s)
  | some _ =>
      if s.is_in_progress then (.error .AlreadyStarted, s)
      else (.ok (), s)

/-- Observable transaction events emitted by the embedded accessors, used
to state bracketing properties of `process_event`. -/
inductive TxEvent : Type where
  | acquireRead : TxEvent
  | acquireWrite : TxEvent
  | release : TxEvent
  | handleEvent : TxEvent
deriving DecidableEq

/-- Host::borrow_game (`src/host.rs` lines 103-105):
`Ref::map((*self.state).borrow(), |state| &state.game)`.  `borrow()`
panics (`none`) exactly where `try_borrow` fails; on success the guard
grants read access to `state.game` while the flag records one more
live reader. -/
def Host.borrow_game {Game : Type} (flag : BorrowFlag) (s : State Game) :
    Option (Game × BorrowFlag) :=
  (tryBorrow flag).map (fun fl => (s.game, fl))

/-- Host::borrow_game_mut (`src/host.rs` lines 116-118):
`RefMut::map((*self.state).borrow_mut(), |state| &mut state.game)`.
`borrow_mut()` panics (`none`) exactly where `try_borrow_mut` fails. -/
def Host.borrow_game_mut {Game : Type} (flag : BorrowFlag) (s : State Game) :
    Option (Game × BorrowFlag) :=
  (tryBorrowMut flag).map (fun fl => (s.game, fl))

/-- Host::with_game (`src/host.rs` lines 126-130):
`transact(self.borrow_game())`.  The transact body receives the flag
with the read guard alive, so a reentrant accessor call inside the body
sees that flag; the guard is dropped when the body returns.  The body
may itself fail (`none` = a panic inside the transaction propagates). -/
def Host.with_game {Game R : Type} (flag : BorrowFlag) (s : State Game)
    (transact : BorrowFlag → Game → Option (R × List TxEvent)) :
    Option (R × List TxEvent) :=
  match Host.borrow_game flag s with
  | none => none
  | some (g, fl) =>
      match transact fl g with
      | none => none
      | some (r, tr) => some (r, .acquireRead :: tr ++ [.release])

/-- Host::with_game_mut (`src/host.rs` lines 138-143):
`RefMut::map((*self.state).borrow_mut(), ...)` then `transact(borrowed)`.
The body receives exclusive access to the game and returns the updated
game; the guard is dropped when the body returns, so the cell ends with
the updated game and the caller resumes at its original flag. -/
def Host.with_game_mut {Game R : Type} (flag : BorrowFlag) (s : State Game)
    (transact : BorrowFlag → Game → Option (Game × R × List TxEvent)) :
    Option (R × State Game × List TxEvent) :=
  match tryBorrowMut flag with
  | none => none
  | some fl =>
      match transact fl s.game with
      | none => none
      | some (g, r, tr) =>
          some (r, { s with game := g }, .acquireWrite :: tr ++ [.release])

/-- Host::game (`src/host.rs` lines 81-85): `self.with_game(|game| *game)`
— a snapshot copy of the game taken under a read transaction. -/
def Host.game {Game : Type} (flag : BorrowFlag) (s : State Game) :
    Option (Game × List TxEvent) :=
  Host.with_game flag s (fun _ g => some (g, []))

/-- Host::clone_game (`src/host.rs` lines 89-93):
`self.with_game(|game| game.clone())` — a deep-copy snapshot; cloning a
pure value is the identity in the embedding. -/
def Host.clone_game {Game : Type} (flag : BorrowFlag) (s : State Game) :
    Option (Game × List TxEvent) :=
  Host.with_game flag s (fun _ g => some (g, []))

/-- Deep embedding of a `Play::play` coroutine body (trait in
`src/lib.rs`): it either finishes with an `Outcome`, yields an `Event`
through `Context::yield_event` and continues from the resume `Input`, or
reads a snapshot of the game via `ctx.host.game()`. -/
inductive Body (Game E I O : Type) : Type where
  | done : O → Body Game E I O
  | yieldEvent : E → (I → Body Game E I O) → Body Game E I O
  | readGame : (Game → Body Game E I O) → Body Game E I O

/-- The `Play` capability (`src/lib.rs`): the coroutine body plus the
event-reaction hook `handle_event(&mut self, &mut event)`, which may
mutate both the game and the event. -/
structure Play (Game E I O : Type) : Type where
  play : Body Game E I O
  handle_event : Game → E → Game × E

/-- Host::process_event (`src/host.rs` lines 153-155):
`self.with_game_mut(|mut game| game.handle_event(&mut event))` — one
write transaction around exactly one `handle_event` invocation. -/
def Host.process_event {Game E I O : Type} (cap : Play Game E I O)
    (flag : BorrowFlag) (s : State Game) (e : E) :
    Option (E × State Game × List TxEvent) :=
  Host.with_game_mut flag s (fun _ g =>
    some ((cap.handle_event g e).1, (cap.handle_event g e).2,
      [TxEvent.handleEvent]))

/-- Modelled from the spec: `Context::yield_event` (spec section 4.2).
The `Context` type is used by `src/host.rs` line 72 and `src/tests.rs`
but its defining module is not under `src/`.  Per the spec it "first
calls `host.process_event(event)` — letting the capability react to or
mutate the event under its own transaction — then suspends by handing
the (possibly mutated) event to the driver"; the suspension itself is
performed by the interpreter `runBody`, which hands the returned event
to the driver. -/
def yield_event {Game E I O : Type} (cap : Play Game E I O)
    (s : State Game) (e : E) : Option (E × State Game) :=
  match Host.process_event cap .free s e with
  | none => none
  | some (e2, s2, _) => some (e2, s2)

/-- Interpreter for the coroutine obtained from `Host::play`, following
the single-threaded cooperative schedule of the crate: between
suspension points the body runs uninterrupted with the cell unborrowed
(flag `.free`), each `yield_event` reacts to the event then hands it to
the driver, and each subsequent resume consumes the next driver input.
The input list holds the resumes after the one that started the body; a
run that suspends with no input left reports the pending event and no
outcome yet. -/
def runBody {Game E I O : Type} (cap : Play Game E I O) :
    Body Game E I O → State Game → List I →
    List E × Option O × State Game
  | .done o, s, _ => ([], some o, s)
  | .yieldEvent e k, s, inputs =>
      match yield_event cap s e with
      | none => ([], none, s)
      | some (e2, s2) =>
          match inputs with
          | [] => ([e2], none, s2)
          | i :: rest =>
              let (evs, out, s3) := runBody cap (k i) s2 rest
              (e2 :: evs, out, s3)
  | .readGame k, s, inputs =>
      match Host.game .free s with
      | none => ([], none, s)
      | some (g, _) => runBody cap (k g) s inputs

/-- Full driver pipeline: construct the Host, call `play()`, and when it
succeeds resume the returned coroutine with the given input sequence,
collecting the yielded events, the final outcome (if reached) and the
final shared state. -/
def drive {Game E I O : Type} (cap : Play Game E I O) (g : Game)
    (inputs : List I) : Option (List E × Option O × State Game) :=
  match Host.play .free (Host.new g) with
  | (.ok _, s) => some (runBody cap cap.play s inputs)
  | (.error _, _) => none

/-- Heap of `Rc<RefCell<State<Game>>>` allocations, addressed by `Nat`:
the embedding of shared ownership needed to distinguish aliasing from
copying. -/
def Store (Game : Type) : Type :=
  Nat → State Game

/-- Pointwise update of one allocation in the store. -/
def Store.update {Game : Type} (st : Store Game) (a : Nat)
    (s : State Game) : Store Game :=
  fun b => if b = a then s else st b

/-- The Host handle itself (`src/host.rs` lines 38-40): a
reference-counted pointer to the shared `State` cell, embedded as the
address of that cell in the store. -/
structure Host : Type where
  state : Nat
deriving DecidableEq

/-- Clone for Host (`src/host.rs` lines 158-164):
`Self { state: self.state.clone() }` — `Rc::clone` yields a second
handle to the SAME allocation, never a copy of the game state. -/
def Host.clone (h : Host) : Host :=
  { state := h.state }

/-- Host::game lifted to the store: the snapshot is read from the cell
the handle points to. -/
def Host.game_via {Game : Type} (h : Host) (st : Store Game) :
    Option Game :=
  (Host.game .free (st h.state)).map (fun r => r.1)

/-- Host::clone_game lifted to the store. -/
def Host.clone_game_via {Game : Type} (h : Host) (st : Store Game) :
    Option Game :=
  (Host.clone_game .free (st h.state)).map (fun r => r.1)

/-- Host::with_game_mut lifted to the store: the write transaction runs
on the cell the handle points to and the updated cell is written back to
the same address. -/
def Host.with_game_mut_via {Game R : Type} (h : Host) (st : Store Game)
    (transact : BorrowFlag → Game → Option (Game × R × List TxEvent)) :
    Option (R × Store Game × List TxEvent) :=
  match Host.with_game_mut .free (st h.state) transact with
  | none => none
  | some (r, s2, tr) => some (r, Store.update st h.state s2, tr)

/-- Input received from a player in a game of RoShamBo
(`src/tests.rs` lines 9-20). -/
inductive Choice : Type where
  | Rock : Choice
  | Paper : Choice
  | Scissors : Choice
deriving DecidableEq

/-- PartialOrd for Choice (`src/tests.rs` lines 22-36): the nine-case
table; every pair is comparable, so the embedding returns `Ordering`
directly (the source wraps each row in `Some`). -/
def choice_cmp : Choice → Choice → Ordering
  | .Rock, .Rock => .eq
  | .Rock, .Paper => .lt
  | .Rock, .Scissors => .gt
  | .Paper, .Paper => .eq
  | .Paper, .Scissors => .lt
  | .Paper, .Rock => .gt
  | .Scissors, .Scissors => .eq
  | .Scissors, .Rock => .lt
  | .Scissors, .Paper => .gt

/-- Debug formatting of a Choice, as produced by `{player:?}` in the
message strings of `src/tests.rs`. -/
def Choice.debugFmt : Choice → String
  | .Rock => "Rock"
  | .Paper => "Paper"
  | .Scissors => "Scissors"

/-- Event type of RoShamBo (`src/tests.rs` lines 38-40): a message
string. -/
structure Msg : Type where
  msg : String
deriving DecidableEq

/-- Outcome of a game of RoShamBo, relative to player 1
(`src/tests.rs` lines 42-53). -/
inductive Outcome : Type where
  | Tie : Outcome
  | Win : Outcome
  | Loss : Outcome
deriving DecidableEq

/-- The RoShamBo game state (`src/tests.rs` lines 55-57): the two fields
are the choices of player 1 and player 2. -/
structure RoShamBo : Type where
  player_1 : Choice
  player_2 : Choice
deriving DecidableEq

/-- Coroutine body of `impl Play for RoShamBo` (`src/tests.rs` lines
64-92): yield "Ro!", "Sham!", "Bo!", read the game through
`ctx.host.game()`, compute the outcome from `partial_cmp`, yield one
message describing the result, and finish with the outcome. -/
def roShamBoBody : Body RoShamBo Msg Unit Outcome :=
  Body.yieldEvent ⟨"Ro!"⟩ (fun _ =>
  Body.yieldEvent ⟨"Sham!"⟩ (fun _ =>
  Body.yieldEvent ⟨"Bo!"⟩ (fun _ =>
  Body.readGame (fun g =>
    let outcome :=
      match choice_cmp g.player_1 g.player_2 with
      | .eq => Outcome.Tie
      | .gt => Outcome.Win
      | .lt => Outcome.Loss
    let m :=
      match outcome with
      | .Tie =>
          g.player_1.debugFmt ++ " ties with " ++ g.player_2.debugFmt ++ "."
      | .Win =>
          g.player_1.debugFmt ++ " beats " ++ g.player_2.debugFmt ++ "."
      | .Loss =>
          g.player_2.debugFmt ++ " beats " ++ g.player_1.debugFmt ++ "."
    Body.yieldEvent ⟨m⟩ (fun _ => Body.done outcome)))))

/-- The RoShamBo `Play` capability: the body above, and the
`handle_event` hook of `src/tests.rs` lines 94-97, which only prints the
message to the console and mutates neither the game nor the event. -/
def roShamBoPlay : Play RoShamBo Msg Unit Outcome :=
  { play := roShamBoBody, handle_event := fun g e => (g, e) }

/-- Cyclic beats relation exactly as worded in the claim (not taken from
the source): Rock beats Scissors, Scissors beats Paper, Paper beats
Rock. -/
def claim_beats : Choice → Choice → Bool
  | .Rock, .Scissors => true
  | .Scissors, .Paper => true
  | .Paper, .Rock => true
  | _, _ => false

/-- Outcome rule exactly as worded in the claim (not taken from the
source): Tie when the choices are equal, Win when player 1 beats
player 2 under the cyclic rule, Loss for the reverse pairing. -/
def claim_outcome (c1 c2 : Choice) : Outcome :=
  if c1 = c2 then .Tie else if claim_beats c1 c2 then .Win else .Loss

/-- C3: a successful `play()` leaves the SharedState entirely unchanged
before the first resume — in fact `Host::play` returns the state
unchanged on every branch, and since no code path ever sets
`is_in_progress` to true, a fresh Host answers `Ok` to `play()` and
answers `Ok` again when `play()` is repeated on the state the first call
returned, never `AlreadyStarted`. -/
theorem play_frame_and_repeatable {Game : Type} (s : State Game) (g : Game)
    (flag : BorrowFlag) :
    (Host.play flag s).2 = s ∧
    (Host.play flag s).2.is_in_progress = s.is_in_progress ∧
    (Host.play .free (Host.new g)).1 = .ok () ∧
    (Host.play .free ((Host.play .free (Host.new g)).2)).1 = .ok () := by
  refine ⟨?_, ?_, rfl, rfl⟩ <;>
    cases flag <;> simp [Host.play, tryBorrowMut] <;>
      cases h : s.is_in_progress <;> simp [h]

/-- C4: when any transaction is open on the cell (shared readers or an
exclusive writer), `play()` returns `Err(InUse)` synchronously, without
panicking and without modifying the SharedState; there is no internal
retry — the embedded `Host.play` is a single total function of the
current flag and state. -/
theorem play_in_use_when_borrowed {Game : Type} (s : State Game) (n : Nat) :
    Host.play (.reading n) s = (.error .InUse, s) ∧
    Host.play .writing s = (.error .InUse, s) := by
  constructor <;> rfl

/-- C1 (evaluation at the failing input): starting from
`Host::new(game)` with any concrete game, the first `play()` succeeds,
and — while that run is active, the shared state being exactly what the
first call returned (see `play_frame_and_repeatable`) — a second `play()`
also returns `Ok`, not `Err(AlreadyStarted)`: the `is_in_progress` flag
is checked by `play()` but never set true by any code path. -/
theorem play_twice_returns_ok :
    (Host.play .free (Host.new (0 : Nat))).1 = .ok () ∧
    (Host.play .free ((Host.play .free (Host.new (0 : Nat))).2)).1 =
      .ok () := by
  exact ⟨rfl, rfl⟩

/-- C2 (counterexample): two simultaneous read transactions do NOT fail.
Invoking `with_game` reentrantly from inside an already-open `with_game`
read transaction on the same cell succeeds (RefCell allows any number of
simultaneous shared borrows), returning the game value rather than
panicking — refuting the claim that ALL second transactions, including
read-read, fail loudly. -/
theorem nested_read_transactions_succeed :
    Host.with_game .free (Host.new (7 : Nat))
      (fun fl _ => Host.with_game fl (Host.new (7 : Nat))
        (fun _ g2 => some (g2, []))) =
    some (7, [.acquireRead, .acquireRead, .release, .release]) := by
  rfl

/-- C2 (amended): any second transaction that involves a write fails
loudly — opening a write transaction while any transaction (read or
write) is open panics, and opening a read transaction while a write is
open panics — whereas a reentrant read inside an open read transaction
succeeds. -/
theorem reentrant_write_panics_reads_shared {Game R : Type}
    (s : State Game) (n : Nat)
    (f : BorrowFlag → Game → Option (Game × R × List TxEvent))
    (f2 : BorrowFlag → Game → Option (R × List TxEvent)) :
    Host.with_game_mut (.reading n) s f = none ∧
    Host.with_game_mut .writing s f = none ∧
    Host.with_game .writing s f2 = none ∧
    (Host.with_game (.reading n) s (fun _ g => some (g, []))).isSome =
      true := by
  refine ⟨rfl, rfl, rfl, rfl⟩

/-- C10: while a read guard from `borrow_game` is alive (flag
`reading n`), a further `borrow_game` and a further `with_game` on the
same (or an aliasing) Host succeed without panicking; only combinations
involving a write transaction panic: `borrow_game_mut` under any live
reader, and either accessor under a live writer. -/
theorem shared_reads_allowed_writes_exclusive {Game : Type}
    (s : State Game) (n : Nat) :
    (Host.borrow_game (.reading n) s).isSome = true ∧
    (Host.with_game (.reading n) s (fun _ g => some (g, []))).isSome =
      true ∧
    Host.borrow_game_mut (.reading n) s = none ∧
    Host.borrow_game_mut .writing s = none ∧
    Host.borrow_game .writing s = none := by
  refine ⟨rfl, rfl, rfl, rfl, rfl⟩

/-- C5: `process_event` on an unborrowed cell performs exactly the
transaction trace `[acquireWrite, handleEvent, release]` — one write
transaction opened, one `handle_event` invocation with exclusive access
to the game and the event, one release before returning — leaving the
cell updated by that single `handle_event` application; and immediately
afterwards the caller can open a new transaction on the same cell
(the trailing `with_game` on the resulting state succeeds). -/
theorem process_event_single_write_transaction {Game E I O : Type}
    (cap : Play Game E I O) (s : State Game) (e : E) :
    Host.process_event cap .free s e =
      some ((cap.handle_event s.game e).2,
        { s with game := (cap.handle_event s.game e).1 },
        [.acquireWrite, .handleEvent, .release]) ∧
    (Host.with_game .free { s with game := (cap.handle_event s.game e).1 }
      (fun _ g => some (g, []))).isSome = true := by
  exact ⟨rfl, rfl⟩

/-- C6: the in-band path and the direct path coincide.  When an event is
about to be yielded by `Context::yield_event` inside a run, the game
state and event are mutated exactly as by a direct external call to
`process_event` with the same event value on the same state: both are
the same single `handle_event` invocation under a write transaction. -/
theorem yield_event_matches_process_event {Game E I O : Type}
    (cap : Play Game E I O) (s : State Game) (e : E) :
    yield_event cap s e =
      (Host.process_event cap .free s e).map (fun r => (r.1, r.2.1)) := by
  unfold yield_event
  cases h : Host.process_event cap .free s e with
  | none => rfl
  | some r => rfl

/-- C7: cloning a Host shares, never copies, game state — a mutation
performed through either of the two handles is observed by a read
through the other — while `game()`/`clone_game()` return snapshots with
value semantics: the snapshot equals the game held at the moment it was
taken (a pure value depending only on the pre-mutation store, hence
unchanged when the live shared state is later mutated, even as a fresh
read through the same handle then returns the new value `g`). -/
theorem host_clone_shares_snapshots_are_values {Game : Type}
    (st : Store Game) (h : Host) (g : Game) :
    (Host.with_game_mut_via (Host.clone h) st
        (fun _ _ => some (g, (), []))).map
      (fun r => Host.game_via h r.2.1) = some (some g) ∧
    (Host.with_game_mut_via h st (fun _ _ => some (g, (), []))).map
      (fun r => Host.game_via (Host.clone h) r.2.1) = some (some g) ∧
    Host.game_via (Host.clone h) st = Host.game_via h st ∧
    Host.game_via h st = some (st h.state).game ∧
    Host.clone_game_via h st = some (st h.state).game := by
  refine ⟨?_, ?_, rfl, rfl, rfl⟩ <;>
    simp [Host.with_game_mut_via, Host.with_game_mut, Host.game_via,
      Host.game, Host.with_game, Host.borrow_game, Host.clone,
      tryBorrow, tryBorrowMut, Store.update]

/-- C8: the engine introduces no nondeterminism.  Two runs obtained from
`play()` on hosts constructed with equal initial game states and driven
with the same fixed input sequence yield equal event sequences, equal
final outcomes and equal final states: the whole pipeline is a pure
function of the initial game and the inputs. -/
theorem drive_deterministic {Game E I O : Type} (cap : Play Game E I O)
    (g1 g2 : Game) (inputs : List I) (hg : g1 = g2) :
    drive cap g1 inputs = drive cap g2 inputs := by
  rw [hg]

/-- Witness for `drive_deterministic`, applied at the RoShamBo capability
with initial state (Rock, Paper) and the four-input drive sequence. -/
theorem drive_deterministic_witness :
    drive roShamBoPlay ⟨.Rock, .Paper⟩ [(), (), (), ()] =
      drive roShamBoPlay ⟨.Rock, .Paper⟩ [(), (), (), ()] :=
  drive_deterministic roShamBoPlay ⟨.Rock, .Paper⟩ ⟨.Rock, .Paper⟩
    [(), (), (), ()] rfl

/-- C9: for every pair of stored choices, driving the coroutine returned
by `play()` with five resumes (the first resume starts the body; the
four inputs are the remaining resumes) produces exactly four yielded
events — "Ro!", "Sham!", "Bo!" in that order, then one message
describing the result — followed by completion with the outcome given by
the three-way cyclic rule relative to player 1. -/
theorem ro_sham_bo_five_resumes (c1 c2 : Choice) :
    ∃ m : Msg,
      drive roShamBoPlay ⟨c1, c2⟩ [(), (), (), ()] =
        some ([⟨"Ro!"⟩, ⟨"Sham!"⟩, ⟨"Bo!"⟩, m],
          some (claim_outcome c1 c2), Host.new ⟨c1, c2⟩) := by
  cases c1 <;> cases c2 <;> exact ⟨_, rfl⟩
